import Mathlib

/-!
# mocbot-bot: the Dagger pipeline module `.dagger/main.go`

A shallow embedding of the module's three functions (`New`, `CI`, `BuildAndPush`).

The module only calls into the Dagger SDK and two collaborator modules
(`PythonCi`, `Docker`).  None of that is in the source file, so it is taken as a
parameter:

* `Sdk` holds the handle types and the directory derivations
  (`Directory`, `File`, `WithFile`) that `CI` calls on the source view;
* `Collab` holds the collaborator calls.  Every collaborator call is a step on an
  arbitrary world state, and the embedding records every call it makes, in order,
  in a call log, so that "invoked once", "invoked before" and "invoked with these
  arguments" are statements about the log.
-/

namespace Main

/-! ## Constants of the source -/

/-- The constant `repoName` of `main.go`. -/
def repoName : String := "mocbot-bot"

/-- The constant `pythonVersion` of `main.go`. -/
def pythonVersion : String := "3.10"

/-! ## The SDK surface the module calls -/

/-- The part of `dagger.PythonCiOpts` the module sets. -/
structure PythonCiOpts where
  PythonVersion : String
  deriving DecidableEq

/-- The part of `dagger.DockerOpts` the module sets. -/
structure DockerOpts where
  Environment : String
  deriving DecidableEq

/-- Handle types of the Dagger SDK and the directory derivations called by `CI`:
`(*Directory).Directory(path)`, `(*Directory).File(path)` and
`(*Directory).WithFile(path, file)`.  In the source they take no `context.Context`
and have no `error` result; they are functions from handles to handles, a derived
view being a new value next to the one it was derived from. -/
structure Sdk where
  Directory : Type
  File : Type
  Secret : Type
  Context : Type
  Error : Type
  directory : Directory → String → Directory
  file : Directory → String → File
  withFile : Directory → String → File → Directory

/-- The two collaborator modules.  Each call is a step on the collaborator's world.
`Lint` and `Publish` are the only calls that take a `context.Context` and have an
`error` result; `dag.PythonCi`, `dag.Docker` and `Build` return one handle. -/
structure Collab (S : Sdk) where
  World : Type
  PythonCi : Type
  LintOut : Type
  Docker : Type
  DockerBuild : Type
  pythonCi : S.Directory → PythonCiOpts → World → PythonCi × World
  lint : PythonCi → S.Context → World → (LintOut × Option S.Error) × World
  docker : S.Directory → S.Secret → String → DockerOpts → World → Docker × World
  build : Docker → World → DockerBuild × World
  publish : DockerBuild → S.Context → World → (String × Option S.Error) × World

/-- One collaborator call, with the arguments it was made with. -/
inductive Call (S : Sdk) (C : Collab S) where
  | pythonCi (src : S.Directory) (opts : PythonCiOpts)
  | lint (self : C.PythonCi) (ctx : S.Context)
  | docker (src : S.Directory) (secret : S.Secret) (name : String) (opts : DockerOpts)
  | build (self : C.Docker)
  | publish (self : C.DockerBuild) (ctx : S.Context)

/-- Execution state: the collaborators' world and the log of calls made so far. -/
structure St (S : Sdk) (C : Collab S) where
  world : C.World
  calls : List (Call S C)

variable {S : Sdk} {C : Collab S}

/-- The call `dag.PythonCi(src, opts)`. -/
def dagPythonCi (C : Collab S) (src : S.Directory) (opts : PythonCiOpts) (σ : St S C) :
    C.PythonCi × St S C :=
  let r := C.pythonCi src opts σ.world
  (r.1, ⟨r.2, σ.calls ++ [Call.pythonCi src opts]⟩)

/-- The call `p.Lint(ctx)`. -/
def callLint (C : Collab S) (p : C.PythonCi) (ctx : S.Context) (σ : St S C) :
    (C.LintOut × Option S.Error) × St S C :=
  let r := C.lint p ctx σ.world
  (r.1, ⟨r.2, σ.calls ++ [Call.lint p ctx]⟩)

/-- The call `dag.Docker(src, secret, name, opts)`. -/
def dagDocker (C : Collab S) (src : S.Directory) (secret : S.Secret) (name : String)
    (opts : DockerOpts) (σ : St S C) : C.Docker × St S C :=
  let r := C.docker src secret name opts σ.world
  (r.1, ⟨r.2, σ.calls ++ [Call.docker src secret name opts]⟩)

/-- The call `docker.Build()`. -/
def callBuild (C : Collab S) (d : C.Docker) (σ : St S C) : C.DockerBuild × St S C :=
  let r := C.build d σ.world
  (r.1, ⟨r.2, σ.calls ++ [Call.build d]⟩)

/-- The call `b.Publish(ctx)`. -/
def callPublish (C : Collab S) (b : C.DockerBuild) (ctx : S.Context) (σ : St S C) :
    (String × Option S.Error) × St S C :=
  let r := C.publish b ctx σ.world
  (r.1, ⟨r.2, σ.calls ++ [Call.publish b ctx]⟩)

/-! ## The module -/

/-- The struct `MocbotBot`. -/
structure MocbotBot (S : Sdk) where
  Source : S.Directory
  InfisicalClientSecret : S.Secret

/-- The function `New`. -/
def New (source : S.Directory) (infisicalClientSecret : S.Secret) : MocbotBot S :=
  MocbotBot.mk source infisicalClientSecret

/-- What a method call leaves behind: its return value, the receiver's fields after
the call, and the execution state after the call. -/
structure Outcome (S : Sdk) (C : Collab S) (α : Type) where
  ret : α
  self : MocbotBot S
  st : St S C

/-- The directory expression of `CI`:
`m.Source.Directory("lib").WithFile(".", m.Source.File(".flake8"))`. -/
def MocbotBot.srcDir (m : MocbotBot S) : S.Directory :=
  S.withFile (S.directory m.Source "lib") "." (S.file m.Source ".flake8")

/-- The method `(*MocbotBot).CI`. -/
def MocbotBot.CI (C : Collab S) (m : MocbotBot S) (ctx : S.Context) (σ : St S C) :
    Outcome S C (Option S.Error) :=
  let dir := m.srcDir
  let p := dagPythonCi C dir (PythonCiOpts.mk pythonVersion) σ
  let r := callLint C p.1 ctx p.2
  match r.1.2 with
  | some err => ⟨some err, m, r.2⟩
  | none => ⟨none, m, r.2⟩

/-- The method `(*MocbotBot).BuildAndPush`. -/
def MocbotBot.BuildAndPush (C : Collab S) (m : MocbotBot S) (ctx : S.Context) (env : String)
    (σ : St S C) : Outcome S C (String × Option S.Error) :=
  let docker := dagDocker C m.Source m.InfisicalClientSecret repoName (DockerOpts.mk env) σ
  let b := callBuild C docker.1 docker.2
  let r := callPublish C b.1 ctx b.2
  ⟨r.1, m, r.2⟩

/-- Modelled from the spec: the callable surface
`BuildAndPush(env: string = "staging")`.  The source carries only the annotation
`+default="staging"` on the parameter `env`; the dispatcher that fills in an omitted
argument is not in the source file.  `none` is a call without an `env` argument. -/
def invokeBuildAndPush (C : Collab S) (m : MocbotBot S) (ctx : S.Context)
    (env : Option String) (σ : St S C) : Outcome S C (String × Option S.Error) :=
  match env with
  | some e => m.BuildAndPush C ctx e σ
  | none => m.BuildAndPush C ctx "staging" σ

/-! ## Reading the call log -/

/-- Number of `Lint` calls in a log. -/
def lintCount : List (Call S C) → Nat
  | [] => 0
  | Call.lint _ _ :: cs => lintCount cs + 1
  | _ :: cs => lintCount cs

/-- Number of `Publish` calls in a log. -/
def publishCount : List (Call S C) → Nat
  | [] => 0
  | Call.publish _ _ :: cs => publishCount cs + 1
  | _ :: cs => publishCount cs

/-- Number of `Build` calls in a log. -/
def buildCount : List (Call S C) → Nat
  | [] => 0
  | Call.build _ :: cs => buildCount cs + 1
  | _ :: cs => buildCount cs

/-- The arguments of the `dag.PythonCi` calls in a log, in order: the directory view
and the options handed to the lint collaborator. -/
def lintInputs : List (Call S C) → List (S.Directory × PythonCiOpts)
  | [] => []
  | Call.pythonCi src opts :: cs => (src, opts) :: lintInputs cs
  | _ :: cs => lintInputs cs

/-- The arguments of the `dag.Docker` calls in a log, in order. -/
def dockerInputs : List (Call S C) → List (S.Directory × S.Secret × String × DockerOpts)
  | [] => []
  | Call.docker src secret name opts :: cs => (src, secret, name, opts) :: dockerInputs cs
  | _ :: cs => dockerInputs cs

/-! ## A model of the source view -/

/-- A node of a directory tree: a file with its content, or a directory with its
named entries. -/
inductive Node where
  | file (content : String)
  | dir (entries : List (String × Node))

/-- The named entries of a directory. -/
abbrev Entries := List (String × Node)

/-- Cut a list of characters at every `/`; `cur` holds the current piece, reversed. -/
def splitSlash : List Char → List Char → List (List Char)
  | [], cur => [cur.reverse]
  | c :: cs, cur => if c = '/' then cur.reverse :: splitSlash cs [] else splitSlash cs (c :: cur)

/-- The segments of a path; empty segments and `.` name the directory itself and are
dropped, so `"."` is the root. -/
def segments (p : String) : List String :=
  ((splitSlash p.data []).map String.mk).filter (fun s => !(s == "") && !(s == "."))

/-- The directory reached from `es` along a path, if every segment names a directory. -/
def lookupDir (es : Entries) : List String → Option Entries
  | [] => some es
  | s :: rest =>
    match es.lookup s with
    | some (Node.dir cs) => lookupDir cs rest
    | _ => none

/-- The file at a path, with its name (the last segment) and its content. -/
def lookupFile (es : Entries) (segs : List String) : Option (String × String) :=
  match segs.getLast?, lookupDir es segs.dropLast with
  | some name, some d =>
    match d.lookup name with
    | some (Node.file c) => some (name, c)
    | _ => none
  | _, _ => none

/-- Bind `name` to `n`, replacing an entry of that name in place or adding one. -/
def upsert : Entries → String → Node → Entries
  | [], name, n => [(name, n)]
  | (k, v) :: es, name, n => if name == k then (k, n) :: es else (k, v) :: upsert es name n

/-- Bind `name` to `n` in the directory at a path below `es`, creating the path. -/
def putAt : Entries → List String → String → Node → Entries
  | es, [], name, n => upsert es name n
  | es, s :: rest, name, n =>
    match es.lookup s with
    | some (Node.dir cs) => upsert es s (Node.dir (putAt cs rest name n))
    | _ => upsert es s (Node.dir (putAt [] rest name n))

/-- Modelled from the spec: the Source View, "a directory tree value with derivation
operations (`subdirectory(path)`, `overlayFile(path, fileHandle)`) that produce new,
independent derived views", whose implementation (the Dagger SDK and engine) is not in
the source file.  A directory handle is the tree it resolves to, or `none` when a
path did not resolve; a file handle is a name with a content.  `overlayFile` on a
path that names a directory of the view (`"."` is its root) places the file in that
directory under the file's own name; on any other path the last segment is the
destination name. -/
def treeSdk (Secret Context Error : Type) : Sdk where
  Directory := Option Entries
  File := Option (String × String)
  Secret := Secret
  Context := Context
  Error := Error
  directory := fun d p => d.bind (fun es => lookupDir es (segments p))
  file := fun d p => d.bind (fun es => lookupFile es (segments p))
  withFile := fun d p f =>
    match d, f with
    | some es, some (name, c) =>
      match lookupDir es (segments p), (segments p).getLast? with
      | some _, _ => some (putAt es (segments p) name (Node.file c))
      | none, some dst => some (putAt es (segments p).dropLast dst (Node.file c))
      | none, none => none
    | _, _ => none

/-! ## Concrete collaborators

A lint collaborator that wants a `.flake8` at the root of the view it is given, and
a build collaborator that needs a `Dockerfile` at the root of the source; the world
is the registry, the list of references published so far. -/

/-- The SDK instance the concrete collaborators run on. -/
abbrev demoSdk : Sdk := treeSdk Nat Unit String

/-- The configured build collaborator. -/
structure DemoDocker where
  src : Option Entries
  secret : Nat
  name : String
  env : String

/-- The build stage: the image name, or the build's error. -/
def demoBuild (d : DemoDocker) : Except String String :=
  match d.src with
  | some es =>
    match es.lookup "Dockerfile" with
    | some (Node.file _) => Except.ok (d.name ++ ":" ++ d.env)
    | _ => Except.error "build: no Dockerfile"
  | none => Except.error "build: no source"

/-- The lint stage on a view. -/
def demoLint (view : Option Entries) : String × Option String :=
  match view with
  | some es =>
    match es.lookup ".flake8" with
    | some (Node.file _) => ("clean", none)
    | _ => ("", some "lint: no .flake8")
  | none => ("", some "lint: no source")

/-- The concrete collaborators. -/
def demoCollab : Collab demoSdk where
  World := List String
  PythonCi := Option Entries × String
  LintOut := String
  Docker := DemoDocker
  DockerBuild := Except String String
  pythonCi := fun src opts w => ((src, opts.PythonVersion), w)
  lint := fun p _ w => (demoLint p.1, w)
  docker := fun src secret name opts w => (DemoDocker.mk src secret name opts.Environment, w)
  build := fun d w => (demoBuild d, w)
  publish := fun b _ w =>
    match b with
    | Except.ok img => (("registry/" ++ img, none), w ++ ["registry/" ++ img])
    | Except.error e => (("", some e), w)

/-- A source tree with a `lib` directory, a `.flake8` and a `Dockerfile`. -/
def demoTree : Entries :=
  [ ("lib", Node.dir [("bot.py", Node.file "import discord"),
                      ("utils", Node.dir [("log.py", Node.file "pass")])]),
    (".flake8", Node.file "[flake8]"),
    ("Dockerfile", Node.file "FROM python:3.10"),
    ("README.md", Node.file "MOCBOT") ]

/-- The same `lib` and `.flake8`, other root-level files, and no `Dockerfile`. -/
def demoTreeNoDockerfile : Entries :=
  [ ("LICENSE", Node.file "MIT"),
    ("lib", Node.dir [("bot.py", Node.file "import discord"),
                      ("utils", Node.dir [("log.py", Node.file "pass")])]),
    (".flake8", Node.file "[flake8]") ]

/-- A source tree without a `.flake8`. -/
def demoTreeNoFlake8 : Entries :=
  [ ("lib", Node.dir [("bot.py", Node.file "import discord")]),
    ("Dockerfile", Node.file "FROM python:3.10") ]

/-- The start state: an empty registry and an empty call log. -/
def demoStart : St demoSdk demoCollab := St.mk [] []

/-- The secret handle of the concrete runs. -/
def demoSecret : demoSdk.Secret := (7 : Nat)

/-- The pipeline context on `demoTree`. -/
def demoBot : MocbotBot demoSdk := New (some demoTree) demoSecret

/-- The pipeline context on `demoTreeNoDockerfile`. -/
def demoBotNoDockerfile : MocbotBot demoSdk := New (some demoTreeNoDockerfile) demoSecret

/-- The pipeline context on `demoTreeNoFlake8`. -/
def demoBotNoFlake8 : MocbotBot demoSdk := New (some demoTreeNoFlake8) demoSecret


/-! ## The call log under concatenation -/

theorem lintCount_append (xs ys : List (Call S C)) :
    lintCount (xs ++ ys) = lintCount xs + lintCount ys := by
  induction xs with
  | nil => simp [lintCount]
  | cons x xs ih =>
    cases x
    all_goals simp [lintCount, ih]
    omega

theorem publishCount_append (xs ys : List (Call S C)) :
    publishCount (xs ++ ys) = publishCount xs + publishCount ys := by
  induction xs with
  | nil => simp [publishCount]
  | cons x xs ih =>
    cases x
    all_goals simp [publishCount, ih]
    omega

theorem buildCount_append (xs ys : List (Call S C)) :
    buildCount (xs ++ ys) = buildCount xs + buildCount ys := by
  induction xs with
  | nil => simp [buildCount]
  | cons x xs ih =>
    cases x
    all_goals simp [buildCount, ih]
    omega

theorem lintInputs_append (xs ys : List (Call S C)) :
    lintInputs (xs ++ ys) = lintInputs xs ++ lintInputs ys := by
  induction xs with
  | nil => simp [lintInputs]
  | cons x xs ih => cases x <;> simp [lintInputs, ih]

theorem dockerInputs_append (xs ys : List (Call S C)) :
    dockerInputs (xs ++ ys) = dockerInputs xs ++ dockerInputs ys := by
  induction xs with
  | nil => simp [dockerInputs]
  | cons x xs ih => cases x <;> simp [dockerInputs, ih]

/-! ## What one call of each method does -/

/-- The return value of `CI` is the `error` that `Lint` returned. -/
theorem CI_ret (C : Collab S) (m : MocbotBot S) (ctx : S.Context) (σ : St S C) :
    (m.CI C ctx σ).ret =
      (C.lint (C.pythonCi m.srcDir (PythonCiOpts.mk pythonVersion) σ.world).1 ctx
        (C.pythonCi m.srcDir (PythonCiOpts.mk pythonVersion) σ.world).2).1.2 := by
  unfold MocbotBot.CI
  simp only [dagPythonCi, callLint]
  split <;> simp_all

/-- The receiver after `CI` is the receiver before it. -/
theorem CI_self (C : Collab S) (m : MocbotBot S) (ctx : S.Context) (σ : St S C) :
    (m.CI C ctx σ).self = m := by
  unfold MocbotBot.CI
  simp only []
  split <;> rfl

/-- The state after `CI`: the world `Lint` left, and two more calls in the log. -/
theorem CI_st (C : Collab S) (m : MocbotBot S) (ctx : S.Context) (σ : St S C) :
    (m.CI C ctx σ).st =
      St.mk
        (C.lint (C.pythonCi m.srcDir (PythonCiOpts.mk pythonVersion) σ.world).1 ctx
          (C.pythonCi m.srcDir (PythonCiOpts.mk pythonVersion) σ.world).2).2
        (σ.calls ++ [Call.pythonCi m.srcDir (PythonCiOpts.mk pythonVersion),
          Call.lint (C.pythonCi m.srcDir (PythonCiOpts.mk pythonVersion) σ.world).1 ctx]) := by
  unfold MocbotBot.CI
  simp only [dagPythonCi, callLint]
  split <;> simp

/-- The state after `BuildAndPush`: the world `Publish` left, and three more calls. -/
theorem BuildAndPush_st (C : Collab S) (m : MocbotBot S) (ctx : S.Context) (env : String)
    (σ : St S C) (d : C.Docker) (w1 : C.World) (b : C.DockerBuild) (w2 : C.World)
    (hd : C.docker m.Source m.InfisicalClientSecret repoName (DockerOpts.mk env) σ.world
      = (d, w1))
    (hb : C.build d w1 = (b, w2)) :
    (m.BuildAndPush C ctx env σ).ret = (C.publish b ctx w2).1 ∧
    (m.BuildAndPush C ctx env σ).st =
      St.mk (C.publish b ctx w2).2
        (σ.calls ++ [Call.docker m.Source m.InfisicalClientSecret repoName (DockerOpts.mk env),
          Call.build d, Call.publish b ctx]) := by
  simp [MocbotBot.BuildAndPush, dagDocker, callBuild, callPublish, hd, hb]

/-! ## The model of the source view -/

theorem lookup_upsert (es : Entries) (name : String) (n : Node) (k : String) :
    (upsert es name n).lookup k = if k = name then some n else es.lookup k := by
  induction es with
  | nil =>
    by_cases h : k = name
    · simp [upsert, List.lookup, h]
    · have hb : (k == name) = false := by simpa using h
      simp [upsert, List.lookup, h, hb]
  | cons e es ih =>
    obtain ⟨key, v⟩ := e
    by_cases hk : name = key
    · subst hk
      by_cases h : k = name
      · simp [upsert, List.lookup, h]
      · have hb : (k == name) = false := by simpa using h
        simp [upsert, List.lookup, h, hb]
    · by_cases h : k = key
      · subst h
        have hne : ¬ k = name := fun h => hk h.symm
        simp [upsert, List.lookup, hk, hne]
      · have hb : (k == key) = false := by simpa using h
        simp [upsert, List.lookup, hk, h, hb, ih]

/-- The directory expression of `CI` reads the source view only through its `lib`
subdirectory and its `.flake8` file, whatever the SDK's derivations are. -/
theorem srcDir_congr (m1 m2 : MocbotBot S)
    (hlib : S.directory m1.Source "lib" = S.directory m2.Source "lib")
    (hcfg : S.file m1.Source ".flake8" = S.file m2.Source ".flake8") :
    m1.srcDir = m2.srcDir := by
  simp only [MocbotBot.srcDir, hlib, hcfg]

/-- On a source tree with a `lib` directory and a `.flake8` file at its root, the
directory expression of `CI` resolves to the entries of `lib` with `.flake8` bound
at the root. -/
theorem srcDir_tree {Secret Context Error : Type} (es L : Entries) (c : String) (k : Secret)
    (hlib : es.lookup "lib" = some (Node.dir L))
    (hcfg : es.lookup ".flake8" = some (Node.file c)) :
    (New (S := treeSdk Secret Context Error) (some es) k).srcDir
      = some (upsert L ".flake8" (Node.file c)) := by
  have s1 : segments "lib" = ["lib"] := by decide
  have s2 : segments ".flake8" = [".flake8"] := by decide
  have s3 : segments "." = [] := by decide
  simp [MocbotBot.srcDir, New, treeSdk, s1, s2, s3, lookupDir, lookupFile, hlib, hcfg, putAt]

/-! ## `CI` -/

/-- C1: for every pipeline context and every lint collaborator, the value `CI` returns
is exactly the `error` value the collaborator's `Lint` returned, so it is non-nil if and
only if `Lint`'s is, and `CI` calls `Lint` exactly once: the log grows by the
`dag.PythonCi` call and one `Lint` call, and the world is left as `Lint` left it. -/
theorem ci_returns_lint_error (C : Collab S) (m : MocbotBot S) (ctx : S.Context)
    (σ : St S C) (p : C.PythonCi) (w1 : C.World) (out : C.LintOut) (err : Option S.Error)
    (w2 : C.World)
    (hp : C.pythonCi m.srcDir (PythonCiOpts.mk pythonVersion) σ.world = (p, w1))
    (hl : C.lint p ctx w1 = ((out, err), w2)) :
    (m.CI C ctx σ).ret = err ∧
    ((m.CI C ctx σ).ret ≠ none ↔ err ≠ none) ∧
    lintCount (m.CI C ctx σ).st.calls = lintCount σ.calls + 1 ∧
    (m.CI C ctx σ).st.calls
      = σ.calls ++ [Call.pythonCi m.srcDir (PythonCiOpts.mk pythonVersion), Call.lint p ctx] ∧
    (m.CI C ctx σ).st.world = w2 := by
  have hret : (m.CI C ctx σ).ret = err := by rw [CI_ret, hp, hl]
  have hst := CI_st C m ctx σ
  rw [hp, hl] at hst
  refine ⟨hret, by rw [hret], ?_, by rw [hst], by rw [hst]⟩
  rw [hst]
  simp [lintCount_append, lintCount]

/-- C1, on a source tree without `.flake8`: the lint collaborator fails and `CI`
returns its error. -/
theorem ci_returns_lint_error_witness :
    demoCollab.pythonCi demoBotNoFlake8.srcDir (PythonCiOpts.mk pythonVersion) demoStart.world
      = ((none, "3.10"), []) ∧
    demoCollab.lint (none, "3.10") () [] = (("", some "lint: no source"), []) ∧
    (demoBotNoFlake8.CI demoCollab () demoStart).ret = some "lint: no source" ∧
    lintCount (demoBotNoFlake8.CI demoCollab () demoStart).st.calls = 1 :=
  have h := ci_returns_lint_error demoCollab demoBotNoFlake8 () demoStart
    (none, "3.10") [] "" (some "lint: no source") [] rfl rfl
  ⟨rfl, rfl, h.1, h.2.2.1⟩

/-- C2: for source trees that contain a `lib` directory and a `.flake8` file at their
root, the view `CI` hands to the lint collaborator has, under every name, what `lib`
has under that name, except that `.flake8` names the source root's `.flake8` file;
and two source trees with the same `lib` and the same `.flake8` hand over the same
view, whatever else they contain (and whatever the secret handle is). -/
theorem ci_view_is_lib_with_flake8 {Secret Context Error : Type}
    (C : Collab (treeSdk Secret Context Error)) (k1 k2 : Secret) (ctx : Context)
    (σ : St (treeSdk Secret Context Error) C) (es1 es2 L : Entries) (c : String)
    (hlib1 : es1.lookup "lib" = some (Node.dir L))
    (hcfg1 : es1.lookup ".flake8" = some (Node.file c))
    (hlib2 : es2.lookup "lib" = some (Node.dir L))
    (hcfg2 : es2.lookup ".flake8" = some (Node.file c)) :
    ∃ V : Entries,
      (∀ name : String,
        V.lookup name = if name = ".flake8" then some (Node.file c) else L.lookup name) ∧
      lintInputs ((New (some es1) k1).CI C ctx σ).st.calls
        = lintInputs σ.calls ++
          ([(some V, PythonCiOpts.mk "3.10")] :
            List ((treeSdk Secret Context Error).Directory × PythonCiOpts)) ∧
      lintInputs ((New (some es2) k2).CI C ctx σ).st.calls
        = lintInputs σ.calls ++
          ([(some V, PythonCiOpts.mk "3.10")] :
            List ((treeSdk Secret Context Error).Directory × PythonCiOpts)) := by
  refine ⟨upsert L ".flake8" (Node.file c), fun name => lookup_upsert L _ _ name, ?_, ?_⟩
  · rw [CI_st, srcDir_tree es1 L c k1 hlib1 hcfg1]
    simp [lintInputs_append, lintInputs, pythonVersion]
  · have hsame : (New (S := treeSdk Secret Context Error) (some es2) k2).srcDir
        = (New (S := treeSdk Secret Context Error) (some es1) k1).srcDir := by
      apply srcDir_congr
      · have s1 : segments "lib" = ["lib"] := by decide
        simp [New, treeSdk, s1, lookupDir, hlib1, hlib2]
      · have s2 : segments ".flake8" = [".flake8"] := by decide
        simp [New, treeSdk, s2, lookupDir, lookupFile, hcfg1, hcfg2]
    rw [CI_st, hsame, srcDir_tree es1 L c k1 hlib1 hcfg1]
    simp [lintInputs_append, lintInputs, pythonVersion]

/-- C2, on two source trees with the same `lib` and `.flake8` and different other
root-level files. -/
theorem ci_view_is_lib_with_flake8_witness :
    demoTree.lookup "lib" = demoTreeNoDockerfile.lookup "lib" ∧
    demoTree.lookup ".flake8" = demoTreeNoDockerfile.lookup ".flake8" ∧
    ∃ V : Entries,
      (∀ name : String,
        V.lookup name = if name = ".flake8" then some (Node.file "[flake8]")
          else List.lookup name [("bot.py", Node.file "import discord"),
            ("utils", Node.dir [("log.py", Node.file "pass")])]) ∧
      lintInputs (demoBot.CI demoCollab () demoStart).st.calls
        = ([(some V, PythonCiOpts.mk "3.10")] : List (demoSdk.Directory × PythonCiOpts)) ∧
      lintInputs (demoBotNoDockerfile.CI demoCollab () demoStart).st.calls
        = ([(some V, PythonCiOpts.mk "3.10")] : List (demoSdk.Directory × PythonCiOpts)) :=
  ⟨rfl, rfl,
    ci_view_is_lib_with_flake8 demoCollab demoSecret demoSecret () demoStart demoTree
      demoTreeNoDockerfile _ "[flake8]" rfl rfl rfl rfl⟩

/-- C8: for every pipeline context, a call of `CI` leaves the context's source view and
secret handle as they were, and a second call of `CI`, made in whatever world the
first one left, hands the lint collaborator the same derived view and the same tool
version `"3.10"` as the first. -/
theorem ci_leaves_context_unchanged (C : Collab S) (m : MocbotBot S) (ctx ctx2 : S.Context)
    (σ : St S C) :
    (m.CI C ctx σ).self.Source = m.Source ∧
    (m.CI C ctx σ).self.InfisicalClientSecret = m.InfisicalClientSecret ∧
    lintInputs (m.CI C ctx σ).st.calls
      = lintInputs σ.calls ++
        [(S.withFile (S.directory m.Source "lib") "." (S.file m.Source ".flake8"),
          PythonCiOpts.mk "3.10")] ∧
    lintInputs ((m.CI C ctx σ).self.CI C ctx2 (m.CI C ctx σ).st).st.calls
      = lintInputs σ.calls ++
        [(S.withFile (S.directory m.Source "lib") "." (S.file m.Source ".flake8"),
          PythonCiOpts.mk "3.10"),
         (S.withFile (S.directory m.Source "lib") "." (S.file m.Source ".flake8"),
          PythonCiOpts.mk "3.10")] := by
  refine ⟨by rw [CI_self], by rw [CI_self], ?_, ?_⟩
  · rw [CI_st]
    simp [lintInputs_append, lintInputs, pythonVersion, MocbotBot.srcDir]
  · rw [CI_self, CI_st C m ctx2, CI_st C m ctx]
    simp [lintInputs_append, lintInputs, pythonVersion, MocbotBot.srcDir]

/-- C10: for every source view and any two secret handles, `CI` on the context built
with the one and `CI` on the context built with the other return the same value, leave
the same world and the same call log, and hand the lint collaborator the same derived
view with the tool version `"3.10"`. -/
theorem ci_independent_of_secret (C : Collab S) (source : S.Directory) (k1 k2 : S.Secret)
    (ctx : S.Context) (σ : St S C) :
    ((New source k1).CI C ctx σ).ret = ((New source k2).CI C ctx σ).ret ∧
    ((New source k1).CI C ctx σ).st = ((New source k2).CI C ctx σ).st ∧
    lintInputs ((New source k1).CI C ctx σ).st.calls
      = lintInputs σ.calls ++
        [(S.withFile (S.directory source "lib") "." (S.file source ".flake8"),
          PythonCiOpts.mk "3.10")] := by
  have hdir : (New source k1).srcDir = (New source k2).srcDir := rfl
  refine ⟨by rw [CI_ret, CI_ret, hdir], by rw [CI_st, CI_st, hdir], ?_⟩
  rw [CI_st]
  simp [lintInputs_append, lintInputs, pythonVersion, MocbotBot.srcDir, New]

/-! ## `New` -/

/-- C9: for every source view `s` and secret handle `k`, whatever the derivations of
the SDK are, `New s k` is the context whose `Source` is `s` and whose
`InfisicalClientSecret` is `k`. -/
theorem new_stores_arguments (s : S.Directory) (k : S.Secret) :
    (New s k).Source = s ∧ (New s k).InfisicalClientSecret = k ∧
    New s k = MocbotBot.mk s k :=
  ⟨rfl, rfl, rfl⟩

/-! ## `BuildAndPush` -/

/-- C3: for every pipeline context, every `env` and every reference string `r`, if the
collaborator's `Publish`, called on what `Build` returned, succeeds with `r`, then
`BuildAndPush` returns `r` itself with a nil error. -/
theorem buildAndPush_returns_reference (C : Collab S) (m : MocbotBot S) (ctx : S.Context)
    (env : String) (σ : St S C) (d : C.Docker) (w1 : C.World) (b : C.DockerBuild)
    (w2 : C.World) (r : String) (w3 : C.World)
    (hd : C.docker m.Source m.InfisicalClientSecret repoName (DockerOpts.mk env) σ.world
      = (d, w1))
    (hb : C.build d w1 = (b, w2))
    (hp : C.publish b ctx w2 = ((r, none), w3)) :
    (m.BuildAndPush C ctx env σ).ret = (r, none) := by
  rw [(BuildAndPush_st C m ctx env σ d w1 b w2 hd hb).1, hp]

/-- C3, on a source tree with a `Dockerfile`: the reference the registry hands out is
what `BuildAndPush` returns. -/
theorem buildAndPush_returns_reference_witness :
    demoCollab.docker demoBot.Source demoBot.InfisicalClientSecret repoName
        (DockerOpts.mk "production") demoStart.world
      = (DemoDocker.mk (some demoTree) demoSecret "mocbot-bot" "production", []) ∧
    demoCollab.build (DemoDocker.mk (some demoTree) demoSecret "mocbot-bot" "production") []
      = (Except.ok "mocbot-bot:production", []) ∧
    demoCollab.publish (Except.ok "mocbot-bot:production") () []
      = (("registry/mocbot-bot:production", none), ["registry/mocbot-bot:production"]) ∧
    (demoBot.BuildAndPush demoCollab () "production" demoStart).ret
      = ("registry/mocbot-bot:production", none) :=
  ⟨rfl, rfl, rfl,
    buildAndPush_returns_reference demoCollab demoBot () "production" demoStart
      (DemoDocker.mk (some demoTree) demoSecret "mocbot-bot" "production") []
      (Except.ok "mocbot-bot:production") [] "registry/mocbot-bot:production"
      ["registry/mocbot-bot:production"] rfl rfl rfl⟩

/-- C4: in every execution of `BuildAndPush` the collaborator's `Build` is called and
has returned its value before `Publish` is invoked, and `Publish` is invoked exactly
once, on that value and in the world `Build` left.  At no point of the run has
`Publish` been invoked without a `Build` call that has returned: `Build` has no error
result here, so the only way for its call to fail is not to return, and a failure of
the build stage reaches `BuildAndPush` only inside the result of `Publish`. -/
theorem buildAndPush_build_then_publish (C : Collab S) (m : MocbotBot S) (ctx : S.Context)
    (env : String) (σ : St S C) (d : C.Docker) (w1 : C.World) (b : C.DockerBuild)
    (w2 : C.World)
    (hd : C.docker m.Source m.InfisicalClientSecret repoName (DockerOpts.mk env) σ.world
      = (d, w1))
    (hb : C.build d w1 = (b, w2)) :
    (m.BuildAndPush C ctx env σ).st.calls
      = σ.calls ++ [Call.docker m.Source m.InfisicalClientSecret repoName (DockerOpts.mk env),
          Call.build d, Call.publish b ctx] ∧
    (∀ n : Nat,
      publishCount (((m.BuildAndPush C ctx env σ).st.calls.drop σ.calls.length).take n)
        ≤ buildCount (((m.BuildAndPush C ctx env σ).st.calls.drop σ.calls.length).take n)) ∧
    buildCount (m.BuildAndPush C ctx env σ).st.calls = buildCount σ.calls + 1 ∧
    publishCount (m.BuildAndPush C ctx env σ).st.calls = publishCount σ.calls + 1 ∧
    (m.BuildAndPush C ctx env σ).st.world = (C.publish b ctx w2).2 ∧
    (m.BuildAndPush C ctx env σ).ret = (C.publish b ctx w2).1 := by
  obtain ⟨hret, hst⟩ := BuildAndPush_st C m ctx env σ d w1 b w2 hd hb
  refine ⟨by rw [hst], ?_, ?_, ?_, by rw [hst], hret⟩
  · intro n
    rw [hst]
    simp only [List.drop_left]
    match n with
    | 0 => simp [publishCount, buildCount]
    | 1 => simp [publishCount, buildCount]
    | 2 => simp [publishCount, buildCount]
    | k + 3 => simp [publishCount, buildCount]
  · rw [hst]
    simp [buildCount_append, buildCount]
  · rw [hst]
    simp [publishCount_append, publishCount]

/-- C4, on a source tree with a `Dockerfile`: the log of the run is `dag.Docker`, then
`Build`, then `Publish` on the image `Build` returned. -/
theorem buildAndPush_build_then_publish_witness :
    demoCollab.docker demoBot.Source demoBot.InfisicalClientSecret repoName
        (DockerOpts.mk "staging") demoStart.world
      = (DemoDocker.mk (some demoTree) demoSecret "mocbot-bot" "staging", []) ∧
    demoCollab.build (DemoDocker.mk (some demoTree) demoSecret "mocbot-bot" "staging") []
      = (Except.ok "mocbot-bot:staging", []) ∧
    (demoBot.BuildAndPush demoCollab () "staging" demoStart).st.calls
      = [Call.docker (some demoTree) demoSecret "mocbot-bot" (DockerOpts.mk "staging"),
         Call.build (DemoDocker.mk (some demoTree) demoSecret "mocbot-bot" "staging"),
         Call.publish (Except.ok "mocbot-bot:staging") ()] ∧
    publishCount (demoBot.BuildAndPush demoCollab () "staging" demoStart).st.calls = 1 ∧
    (demoBot.BuildAndPush demoCollab () "staging" demoStart).st.world
      = ["registry/mocbot-bot:staging"] :=
  have h := buildAndPush_build_then_publish demoCollab demoBot () "staging" demoStart
    (DemoDocker.mk (some demoTree) demoSecret "mocbot-bot" "staging") []
    (Except.ok "mocbot-bot:staging") [] rfl rfl
  ⟨rfl, rfl, h.1, h.2.2.2.1, h.2.2.2.2.1⟩

/-- C5: for every pipeline context and every `env`, `BuildAndPush` makes exactly one
`dag.Docker` call, with the context's source view as it is, the context's secret
handle, the name `"mocbot-bot"` and the option `Environment` equal to `env`; and
whatever `env` is, the run goes on to `Publish`: no value of `env` stops it. -/
theorem buildAndPush_docker_inputs (C : Collab S) (m : MocbotBot S) (ctx : S.Context)
    (env : String) (σ : St S C) :
    dockerInputs (m.BuildAndPush C ctx env σ).st.calls
      = dockerInputs σ.calls ++
        [(m.Source, m.InfisicalClientSecret, "mocbot-bot", DockerOpts.mk env)] ∧
    publishCount (m.BuildAndPush C ctx env σ).st.calls = publishCount σ.calls + 1 := by
  obtain ⟨_, hst⟩ := BuildAndPush_st C m ctx env σ _ _ _ _ rfl rfl
  rw [hst]
  simp [dockerInputs_append, dockerInputs, publishCount_append, publishCount, repoName]

/-- C6: for every pipeline context and every collaborator, a call of `BuildAndPush`
without an `env` argument and a call with `env = "staging"` have the same outcome:
the same return value, the same world and the same log of collaborator calls with
their arguments. -/
theorem invokeBuildAndPush_default (C : Collab S) (m : MocbotBot S) (ctx : S.Context)
    (σ : St S C) :
    invokeBuildAndPush C m ctx none σ = invokeBuildAndPush C m ctx (some "staging") σ ∧
    invokeBuildAndPush C m ctx none σ = m.BuildAndPush C ctx "staging" σ :=
  ⟨rfl, rfl⟩

/-- C7: for every pipeline context and every `env`, if the collaborator's chain of
`Build` and `Publish` raises an error `e` (which it can only do as the error result of
`Publish`, `Build` having none), `BuildAndPush` returns `e` itself as its error,
next to the string `Publish` returned; each stage has been called once and the world
is left as `Publish` left it. -/
theorem buildAndPush_returns_error (C : Collab S) (m : MocbotBot S) (ctx : S.Context)
    (env : String) (σ : St S C) (d : C.Docker) (w1 : C.World) (b : C.DockerBuild)
    (w2 : C.World) (s : String) (e : S.Error) (w3 : C.World)
    (hd : C.docker m.Source m.InfisicalClientSecret repoName (DockerOpts.mk env) σ.world
      = (d, w1))
    (hb : C.build d w1 = (b, w2))
    (hp : C.publish b ctx w2 = ((s, some e), w3)) :
    (m.BuildAndPush C ctx env σ).ret = (s, some e) ∧
    (m.BuildAndPush C ctx env σ).st.calls
      = σ.calls ++ [Call.docker m.Source m.InfisicalClientSecret repoName (DockerOpts.mk env),
          Call.build d, Call.publish b ctx] ∧
    (m.BuildAndPush C ctx env σ).st.world = w3 := by
  obtain ⟨hret, hst⟩ := BuildAndPush_st C m ctx env σ d w1 b w2 hd hb
  rw [hp] at hret hst
  exact ⟨hret, by rw [hst], by rw [hst]⟩

/-- C7, on a source tree without a `Dockerfile`: the error of the build stage comes
out of `Publish` and is what `BuildAndPush` returns. -/
theorem buildAndPush_returns_error_witness :
    demoCollab.docker demoBotNoDockerfile.Source demoBotNoDockerfile.InfisicalClientSecret
        repoName (DockerOpts.mk "staging") demoStart.world
      = (DemoDocker.mk (some demoTreeNoDockerfile) demoSecret "mocbot-bot" "staging", []) ∧
    demoCollab.build
        (DemoDocker.mk (some demoTreeNoDockerfile) demoSecret "mocbot-bot" "staging") []
      = (Except.error "build: no Dockerfile", []) ∧
    demoCollab.publish (Except.error "build: no Dockerfile") () []
      = (("", some "build: no Dockerfile"), []) ∧
    (demoBotNoDockerfile.BuildAndPush demoCollab () "staging" demoStart).ret
      = ("", some "build: no Dockerfile") :=
  ⟨rfl, rfl, rfl,
    (buildAndPush_returns_error demoCollab demoBotNoDockerfile () "staging" demoStart
      (DemoDocker.mk (some demoTreeNoDockerfile) demoSecret "mocbot-bot" "staging") []
      (Except.error "build: no Dockerfile") [] "" "build: no Dockerfile" [] rfl rfl rfl).1⟩

end Main
